import Mathlib

/-!
Verification of the sales-dashboard reporting core (src/app.py) against its
design specification: amount-column resolution, top-3 value highlighting,
row banding, chart selection, query building and scratch-file handling.
Cell values are modeled as integers: only the numeric amount columns ever
participate in a comparison, and a non-amount cell compared against numeric
top-3 values can never match, which integer-valued stand-ins preserve.
-/

namespace SalesApp

/-- A materialized result table: the ordered column names and the row-major
cell values (`df.columns` / `df.values.tolist()`). -/
structure DataFrame where
  cols : List String
  rows : List (List Int)
deriving DecidableEq

/-- pandas `df.columns.get_loc(c)`: the position of column `c`, no answer
(a raised KeyError) when the column is absent. -/
def getLoc (df : DataFrame) (c : String) : Option Nat :=
  if df.cols.contains c then some (List.indexOf c df.cols) else none

/-- The amount-column resolution repeated at app.py lines 56, 58, 80 and 87:
prefer `total_amount`, else fall back to `amount`; none when neither exists. -/
def amountColIdx (df : DataFrame) : Option Nat :=
  if df.cols.contains "total_amount" then getLoc df "total_amount"
  else getLoc df "amount"

/-- The values of column `j`, row by row. -/
def columnVals (df : DataFrame) (j : Nat) : List Int :=
  df.rows.map (fun r => r.getD j 0)

/-- pandas `Series.nlargest(3)`: the 3 largest entries, with multiplicity. -/
def nlargest3 (l : List Int) : List Int :=
  (List.insertionSort (fun a b => a ≥ b) l).take 3

/-- The three backgrounds a data row can receive in the PDF table:
gold `#FFD700`, the light-blue tint `#DCE6F1`, or whitesmoke. -/
inductive Color
  | gold
  | lightBlue
  | whitesmoke
deriving DecidableEq

/-- app.py line 59: gold when the row's resolved amount is among the top 3,
otherwise even/odd banding on the 1-based position (`i0` is the 0-based index,
the source enumerates from 1, so the position is `i0 + 1`). -/
def pdfRowColor (top : List Int) (i0 : Nat) (v : Int) : Color :=
  if v ∈ top then Color.gold
  else if (i0 + 1) % 2 = 0 then Color.lightBlue else Color.whitesmoke

/-- app.py lines 56-60: the background assigned to each data row, in order. -/
def pdfRowColors (df : DataFrame) (j : Nat) : List Color :=
  (List.range df.rows.length).map
    (fun i => pdfRowColor (nlargest3 (columnVals df j)) i ((df.rows.getD i []).getD j 0))

/-- The 0-based data-row indices painted gold by the document renderer. -/
def pdfTopRows (df : DataFrame) : List Nat :=
  match amountColIdx df with
  | none => []
  | some j =>
    (List.range df.rows.length).filter
      (fun i =>
        decide (pdfRowColor (nlargest3 (columnVals df j)) i ((df.rows.getD i []).getD j 0)
          = Color.gold))

/-- The chart element the PDF embeds: a bar chart (recording which amount
column it plots), the category pie, or the empty figure that lines 39-42 still
save and append when neither `product_name` nor `category` is present. -/
inductive Chart
  | bar (amountCol : String)
  | pie
  | emptyFig
deriving DecidableEq

/-- Failures of `create_pdf`: a pandas KeyError on a missing column, or a
failure of the external `doc.build` serialization. -/
inductive PdfErr
  | keyErr (c : String)
  | buildErr
deriving DecidableEq

/-- The visible content of the built PDF. -/
structure PdfArtifact where
  title : String
  chart : Option Chart
  header : List String
  body : List (List Int)
  rowColors : List Color
deriving DecidableEq

/-- app.py lines 29-43, the chart block of `create_pdf`: guarded by the
presence of an amount-like column; bar when `product_name` exists (plotting
`amount` if present, else `total_amount`), else pie of `total_amount` when
`category` exists (raising KeyError before the figure is saved when
`total_amount` is absent), else an empty figure. Returns the chart element
appended (if any) and whether `chart.png` was written to disk. -/
def pdfChartPhase (df : DataFrame) : Except PdfErr (Option Chart × Bool) :=
  if df.cols.contains "amount" || df.cols.contains "total_amount" then
    if df.cols.contains "product_name" then
      Except.ok
        (some (Chart.bar (if df.cols.contains "amount" then "amount" else "total_amount")), true)
    else if df.cols.contains "category" then
      if df.cols.contains "total_amount" then Except.ok (some Chart.pie, true)
      else Except.error (PdfErr.keyErr "total_amount")
    else Except.ok (some Chart.emptyFig, true)
  else Except.ok (none, false)

/-- app.py lines 19-68, `create_pdf`. `buildOk` models whether the external
`doc.build` call succeeds. The second component of the result is whether
`chart.png` is still on disk when the function returns or raises: the removal
at lines 65-66 runs only after a successful build (there is no try/finally),
so an exception propagating out of the build skips it. -/
def createPdf (df : DataFrame) (title : String) (buildOk : Bool) :
    Except PdfErr PdfArtifact × Bool :=
  match pdfChartPhase df with
  | Except.error e => (Except.error e, false)
  | Except.ok p =>
    match amountColIdx df with
    | none => (Except.error (PdfErr.keyErr "amount"), p.2)
    | some j =>
      if buildOk then
        (Except.ok (PdfArtifact.mk title p.1 df.cols df.rows (pdfRowColors df j)), false)
      else (Except.error PdfErr.buildErr, p.2)

/-- Failures of `create_excel_with_chart`: a pandas KeyError. -/
inductive ExcelErr
  | keyErr (c : String)
deriving DecidableEq

/-- The visible content of the built workbook: sheet, cells, gold rows and the
embedded chart's value/category column positions (0-based). -/
structure ExcelArtifact where
  sheetName : String
  header : List String
  body : List (List Int)
  topRows : List Nat
  chartValCol : Nat
  chartCatCol : Nat
deriving DecidableEq

/-- app.py lines 80-84: the highlighting loop compares each row's LAST column
value (`df.iloc[:, -1]`) against the top 3 of the resolved amount column and
formats row `i + 1` of the sheet; recorded here as 0-based data-row indices. -/
def excelTopRows (df : DataFrame) : List Nat :=
  match amountColIdx df with
  | none => []
  | some j =>
    (List.range df.rows.length).filter
      (fun i =>
        decide ((df.rows.getD i []).getD (df.cols.length - 1) 0 ∈ nlargest3 (columnVals df j)))

/-- app.py lines 73-100, `create_excel_with_chart`: write the sheet, compute
the top-3 of the resolved amount column, format the matching rows, then embed
a column chart whose value axis is the resolved amount column and whose
category axis is `category` if present else `product_name` (a KeyError when
neither exists). -/
def createExcel (df : DataFrame) : Except ExcelErr ExcelArtifact :=
  match amountColIdx df with
  | none => Except.error (ExcelErr.keyErr "amount")
  | some j =>
    match (if df.cols.contains "category" then getLoc df "category"
           else getLoc df "product_name") with
    | none => Except.error (ExcelErr.keyErr "product_name")
    | some k =>
      Except.ok (ExcelArtifact.mk "Report" df.cols df.rows (excelTopRows df) j k)

/-- The resolved sidebar filter: date range (dates as ordinals) and the
selected product and category lists. -/
structure Filter where
  startDate : Int
  endDate : Int
  products : List String
  categories : List String

/-- A single-quote character, written by code point to keep the SQL text
faithful to the f-strings of app.py lines 148-152. -/
def sq : String := String.singleton (Char.ofNat 39)

/-- SQL single-quoting of one interpolated value. -/
def quoted (s : String) : String := sq ++ s ++ sq

/-- app.py lines 148-152: the WHERE condition, with the IN-lists appended only
when the corresponding selection is non-empty. -/
def baseCondition (f : Filter) : String :=
  let b0 := "sale_date BETWEEN " ++ quoted (toString f.startDate) ++ " AND "
    ++ quoted (toString f.endDate)
  let b1 :=
    if f.products.isEmpty then b0
    else b0 ++ " AND product_name IN ("
      ++ String.intercalate "," (f.products.map quoted) ++ ")"
  if f.categories.isEmpty then b1
  else b1 ++ " AND category IN ("
    ++ String.intercalate "," (f.categories.map quoted) ++ ")"

/-- app.py lines 154-177: the report-type dispatch. The source chain has no
else branch: with an unknown option no query is assigned, modeled as none
(the subsequent `fetch_data(query)` then fails on the unbound name). -/
def buildQuery (f : Filter) (opt : String) : Option String :=
  if opt = "All Sales Data" then
    some ("SELECT *, quantity*unit_price AS amount FROM sales WHERE " ++ baseCondition f)
  else if opt = "Sales by Product" then
    some ("\n        SELECT product_name, SUM(quantity) AS total_qty, SUM(quantity*unit_price) AS total_amount\n        FROM sales\n        WHERE "
      ++ baseCondition f ++ "\n        GROUP BY product_name\n    ")
  else if opt = "Daily Sales Summary" then
    some ("\n        SELECT sale_date, SUM(quantity) AS total_qty, SUM(quantity*unit_price) AS total_amount\n        FROM sales\n        WHERE "
      ++ baseCondition f ++ "\n        GROUP BY sale_date\n        ORDER BY sale_date\n    ")
  else if opt = "Sales by Category" then
    some ("\n        SELECT category, SUM(quantity) AS total_qty, SUM(quantity*unit_price) AS total_amount\n        FROM sales\n        WHERE "
      ++ baseCondition f ++ "\n        GROUP BY category\n    ")
  else none

/-- One row of the external `sales` table. -/
structure SaleRow where
  sale_date : Int
  product_name : String
  category : String
  quantity : Int
  unit_price : Int

/-- The predicate denoted by `baseCondition`: sale date between the bounds
(inclusive) and, when a product (resp. category) list was selected, membership
in it (an empty selection adds no clause). -/
def rowMatches (f : Filter) (r : SaleRow) : Bool :=
  (decide (f.startDate ≤ r.sale_date) && decide (r.sale_date ≤ f.endDate))
    && (f.products.isEmpty || f.products.contains r.product_name)
    && (f.categories.isEmpty || f.categories.contains r.category)

/-- Modelled from the spec: query execution (`db_connection` / `pd.read_sql`)
is an external collaborator not under src; this is the distinct matching sale
dates in ascending order, per the GROUP BY / ORDER BY of the Daily Sales
Summary query text built at app.py lines 163-170. -/
def dailyDates (f : Filter) (tbl : List SaleRow) : List Int :=
  List.insertionSort (fun a b => a ≤ b) (((tbl.filter (rowMatches f)).map SaleRow.sale_date).dedup)

/-- Modelled from the spec: the standard SQL denotation of the Daily Sales
Summary query - one output row `(sale_date, total_qty, total_amount)` per
distinct matching date, ordered ascending by date. -/
def dailySummaryExec (f : Filter) (tbl : List SaleRow) : List (Int × Int × Int) :=
  (dailyDates f tbl).map (fun d =>
    (d,
     (((tbl.filter (rowMatches f)).filter (fun r => r.sale_date == d)).map SaleRow.quantity).sum,
     (((tbl.filter (rowMatches f)).filter
         (fun r => r.sale_date == d)).map (fun r => r.quantity * r.unit_price)).sum))

/-! ### Helper lemmas -/

theorem getD_map_of_lt {α β : Type} (l : List α) (g : α → β) (da : α) (db : β) (i : Nat)
    (hi : i < l.length) : (l.map g).getD i db = g (l.getD i da) := by
  rw [List.getD_eq_getElem (l.map g) db (by simpa using hi), List.getD_eq_getElem l da hi,
    List.getElem_map]

theorem getD_range_map {β : Type} (n : Nat) (g : Nat → β) (db : β) (i : Nat) (hi : i < n) :
    ((List.range n).map g).getD i db = g i := by
  rw [getD_map_of_lt (List.range n) g 0 db i (by simpa using hi),
    List.getD_eq_getElem (List.range n) 0 (by simpa using hi), List.getElem_range]

theorem pdfRowColors_getD (df : DataFrame) (j i : Nat) (hi : i < df.rows.length) :
    (pdfRowColors df j).getD i Color.whitesmoke
      = pdfRowColor (nlargest3 (columnVals df j)) i ((df.rows.getD i []).getD j 0) := by
  unfold pdfRowColors
  exact getD_range_map df.rows.length _ Color.whitesmoke i hi

theorem columnVals_getD (df : DataFrame) (j i : Nat) (hi : i < df.rows.length) :
    (columnVals df j).getD i 0 = (df.rows.getD i []).getD j 0 := by
  unfold columnVals
  rw [getD_map_of_lt df.rows (fun r => r.getD j 0) [] 0 i hi]

theorem amount_getD_mem (df : DataFrame) (j i : Nat) (hi : i < df.rows.length) :
    (df.rows.getD i []).getD j 0 ∈ columnVals df j := by
  rw [← columnVals_getD df j i hi]
  have hi2 : i < (columnVals df j).length := by simpa [columnVals] using hi
  rw [List.getD_eq_getElem (columnVals df j) 0 hi2]
  exact List.getElem_mem hi2

theorem pdfRowColor_gold_iff (top : List Int) (i0 : Nat) (v : Int) :
    pdfRowColor top i0 v = Color.gold ↔ v ∈ top := by
  unfold pdfRowColor
  by_cases hv : v ∈ top
  · simp [hv]
  · rw [if_neg hv]
    constructor
    · intro h
      by_cases hp : (i0 + 1) % 2 = 0
      · rw [if_pos hp] at h; exact Color.noConfusion h
      · rw [if_neg hp] at h; exact Color.noConfusion h
    · intro h; exact absurd h hv

theorem mem_take_sorted_iff (s : List Int) (hs : List.Sorted (fun a b : Int => a ≥ b) s)
    (v : Int) (k : Nat) :
    v ∈ s.take k ↔ v ∈ s ∧ s.countP (fun x => decide (v < x)) < k := by
  induction s generalizing k with
  | nil => simp
  | cons a t ih =>
    rcases List.sorted_cons.mp hs with ⟨ha, ht⟩
    cases k with
    | zero => simp
    | succ k =>
      rw [List.take_succ_cons]
      by_cases hva : v = a
      · subst hva
        have h0 : t.countP (fun x => decide (v < x)) = 0 := by
          apply List.countP_eq_zero.mpr
          intro x hx
          simpa using not_lt.mpr (ha x hx)
        constructor
        · intro _
          refine ⟨List.mem_cons_self v t, ?_⟩
          simp [List.countP_cons, h0]
        · intro _
          exact List.mem_cons_self v (t.take k)
      · rw [List.countP_cons]
        constructor
        · intro h
          rcases List.mem_cons.mp h with h | h
          · exact absurd h hva
          · rcases (ih ht k).mp h with ⟨hvt, hc⟩
            have hlt : v < a := lt_of_le_of_ne (ha v hvt) hva
            refine ⟨List.mem_cons_of_mem a hvt, ?_⟩
            simp [hlt]
            omega
        · rintro ⟨hmem, hc⟩
          rcases List.mem_cons.mp hmem with h | h
          · exact absurd h hva
          · have hlt : v < a := lt_of_le_of_ne (ha v h) hva
            refine List.mem_cons_of_mem a ((ih ht k).mpr ⟨h, ?_⟩)
            simp [hlt] at hc
            omega

theorem mem_nlargest3_iff (l : List Int) (v : Int) :
    v ∈ nlargest3 l ↔ v ∈ l ∧ l.countP (fun x => decide (v < x)) < 3 := by
  have hperm := List.perm_insertionSort (fun a b : Int => a ≥ b) l
  have hs : List.Sorted (fun a b : Int => a ≥ b)
      (List.insertionSort (fun a b : Int => a ≥ b) l) :=
    List.sorted_insertionSort _ l
  unfold nlargest3
  rw [mem_take_sorted_iff _ hs v 3, hperm.mem_iff, hperm.countP_eq]

theorem amountColIdx_none_iff (df : DataFrame) :
    amountColIdx df = none
      ↔ df.cols.contains "total_amount" = false ∧ df.cols.contains "amount" = false := by
  unfold amountColIdx getLoc
  cases ht : df.cols.contains "total_amount" <;> cases ha : df.cols.contains "amount"
    <;> simp [ht, ha]

theorem amountColIdx_isSome_of_or (df : DataFrame)
    (h : (df.cols.contains "amount" || df.cols.contains "total_amount") = true) :
    ∃ j, amountColIdx df = some j := by
  unfold amountColIdx getLoc
  cases ht : df.cols.contains "total_amount" with
  | true => simp [ht]
  | false =>
    cases ha : df.cols.contains "amount" with
    | true => simp [ht, ha]
    | false => rw [ha, ht] at h; simp at h

theorem mem_excelTopRows_iff (df : DataFrame) (j i : Nat) (hj : amountColIdx df = some j) :
    i ∈ excelTopRows df
      ↔ i < df.rows.length
        ∧ (df.rows.getD i []).getD (df.cols.length - 1) 0 ∈ nlargest3 (columnVals df j) := by
  unfold excelTopRows
  rw [hj]
  rw [List.mem_filter, List.mem_range, decide_eq_true_eq]

theorem pdfChartPhase_no_amount (df : DataFrame) (p : Option Chart × Bool)
    (h : pdfChartPhase df = Except.ok p) (hn : amountColIdx df = none) : p.2 = false := by
  rcases (amountColIdx_none_iff df).mp hn with ⟨ht, ha⟩
  unfold pdfChartPhase at h
  rw [ht, ha] at h
  simp at h
  rw [← h]

/-! ### Claims -/

/-- C5: for every report-type selector outside the four known values, the
dispatch of app.py lines 154-177 has no matching branch, so no query is built:
the report cannot proceed (the failure mode the spec files under
ConfigurationError). -/
theorem claim_C5_thm (f : Filter) (opt : String)
    (h1 : opt ≠ "All Sales Data") (h2 : opt ≠ "Sales by Product")
    (h3 : opt ≠ "Daily Sales Summary") (h4 : opt ≠ "Sales by Category") :
    buildQuery f opt = none := by
  unfold buildQuery
  rw [if_neg h1, if_neg h2, if_neg h3, if_neg h4]

def filterC5 : Filter := Filter.mk 1 2 [] []

/-- C5 witness: a concrete unknown selector builds no query. -/
theorem claim_C5_witness :
    ("Weekly Report" : String) ≠ "All Sales Data"
      ∧ buildQuery filterC5 "Weekly Report" = none :=
  ⟨by decide,
   claim_C5_thm filterC5 "Weekly Report" (by decide) (by decide) (by decide) (by decide)⟩

/-- C10: for a table with an amount-like column but neither `category` nor
`product_name`, the spreadsheet renderer fails at the chart category-axis
lookup (app.py line 88) instead of rendering the sheet without a chart. -/
theorem claim_C10_thm (df : DataFrame) (j : Nat) (hj : amountColIdx df = some j)
    (hcat : df.cols.contains "category" = false)
    (hprod : df.cols.contains "product_name" = false) :
    createExcel df = Except.error (ExcelErr.keyErr "product_name") := by
  unfold createExcel getLoc
  rw [hj, hcat, hprod]
  simp

def dfC10 : DataFrame := DataFrame.mk ["sale_date", "total_qty", "total_amount"] [[1, 2, 3]]

/-- C10 witness: the Daily Sales Summary shape (amount column present, no
category-like column) makes the spreadsheet renderer fail. -/
theorem claim_C10_witness :
    amountColIdx dfC10 = some 2
      ∧ createExcel dfC10 = Except.error (ExcelErr.keyErr "product_name") :=
  ⟨by decide, claim_C10_thm dfC10 2 (by decide) (by decide) (by decide)⟩

/-- C8 (amended): the scratch chart image is guaranteed gone only on the
success path - whenever the document build succeeds, `create_pdf` returns with
`chart.png` removed (and failure paths that occur before the image is written
leave nothing behind); a failure raised after the image is written skips the
removal, because it does not sit in a try/finally. -/
theorem claim_C8_thm (df : DataFrame) (t : String) : (createPdf df t true).2 = false := by
  unfold createPdf
  cases h : pdfChartPhase df with
  | error e => rfl
  | ok p =>
    cases hj : amountColIdx df with
    | some j => rfl
    | none => exact pdfChartPhase_no_amount df p h hj

def dfC8 : DataFrame := DataFrame.mk ["product_name", "amount"] [[1, 10]]

/-- C8 counterexample: when the external document build fails after the chart
image was written, `create_pdf` propagates the failure with `chart.png` still
on disk - the claim's "removed ... when it fails" half is false. -/
theorem claim_C8_cex :
    createPdf dfC8 "Sales Report" false = (Except.error PdfErr.buildErr, true) := by
  rfl

/-- C9: the query built for Daily Sales Summary carries the
`GROUP BY sale_date` / `ORDER BY sale_date` clauses for every filter, and the
denoted output (one aggregate row per distinct matching date, in query order)
is non-decreasing in its date component. -/
theorem claim_C9_thm (f : Filter) (tbl : List SaleRow) :
    (∃ s1 s2, buildQuery f "Daily Sales Summary"
        = some (s1 ++ "GROUP BY sale_date\n        ORDER BY sale_date" ++ s2))
      ∧ List.Pairwise (fun a b : Int × Int × Int => a.1 ≤ b.1) (dailySummaryExec f tbl) := by
  constructor
  · refine ⟨"\n        SELECT sale_date, SUM(quantity) AS total_qty, SUM(quantity*unit_price) AS total_amount\n        FROM sales\n        WHERE "
      ++ baseCondition f ++ "\n        ", "\n    ", ?_⟩
    unfold buildQuery
    rw [if_neg (by decide), if_neg (by decide), if_pos rfl]
    congr 1
    simp only [String.append_assoc]
    rfl
  · unfold dailySummaryExec
    refine List.Pairwise.map _ (fun a b hab => hab) ?_
    have hs : List.Sorted (fun a b : Int => a ≤ b) (dailyDates f tbl) :=
      List.sorted_insertionSort _ _
    exact hs

/-- C1 (amended): both renderers resolve the top-3 source column by preferring
`total_amount` and falling back to `amount`, and fail (KeyError, the failure
the spec files under SchemaError) when neither exists, never defaulting; the
document renderer paints a row gold exactly when its resolved-column value is
among the top 3, while the spreadsheet renderer tests each row's LAST-column
value against those top-3 values - coinciding with the resolved column only
when that column is last, as in every table the query builder produces. -/
theorem claim_C1_thm (df : DataFrame) (t : String) (b : Bool) :
    (amountColIdx df = none
        ↔ df.cols.contains "total_amount" = false ∧ df.cols.contains "amount" = false)
      ∧ (amountColIdx df = none →
          (createPdf df t b).1 = Except.error (PdfErr.keyErr "amount")
            ∧ createExcel df = Except.error (ExcelErr.keyErr "amount"))
      ∧ (∀ j i, amountColIdx df = some j → i < df.rows.length →
          ((pdfRowColors df j).getD i Color.whitesmoke = Color.gold
            ↔ (df.rows.getD i []).getD j 0 ∈ nlargest3 (columnVals df j)))
      ∧ (∀ j i, amountColIdx df = some j →
          (i ∈ excelTopRows df
            ↔ i < df.rows.length
              ∧ (df.rows.getD i []).getD (df.cols.length - 1) 0
                  ∈ nlargest3 (columnVals df j))) := by
  refine ⟨amountColIdx_none_iff df, ?_, ?_, ?_⟩
  · intro hn
    rcases (amountColIdx_none_iff df).mp hn with ⟨ht, ha⟩
    constructor
    · unfold createPdf pdfChartPhase
      rw [ht, ha, hn]
      simp
    · unfold createExcel
      rw [hn]
  · intro j i hj hi
    rw [pdfRowColors_getD df j i hi, pdfRowColor_gold_iff]
  · intro j i hj
    exact mem_excelTopRows_iff df j i hj

def dfC1w : DataFrame := DataFrame.mk ["x"] [[1]]

/-- C1 witness: with neither amount column both renderers fail. -/
theorem claim_C1_witness :
    (createPdf dfC1w "Sales Report" true).1 = Except.error (PdfErr.keyErr "amount")
      ∧ createExcel dfC1w = Except.error (ExcelErr.keyErr "amount") :=
  (claim_C1_thm dfC1w "Sales Report" true).2.1 (by decide)

def dfC1x : DataFrame := DataFrame.mk ["total_amount", "extra"] [[40, 7], [25, 8], [15, 9]]

/-- C1 counterexample: on `dfC1x` the resolved amount column is column 0 and
row 0's resolved amount is among the top 3, yet the spreadsheet renderer
highlights no row at all - it does not use the resolved column for its
top-N membership test. -/
theorem claim_C1_cex :
    amountColIdx dfC1x = some 0
      ∧ (dfC1x.rows.getD 0 []).getD 0 0 ∈ nlargest3 (columnVals dfC1x 0)
      ∧ excelTopRows dfC1x = [] := by
  refine ⟨by decide, by decide, by decide⟩

def dfC2 : DataFrame := DataFrame.mk ["amount"] [[10], [10], [10], [5], [1]]

/-- C2 (amended): in the document renderer a row is painted gold iff fewer
than 3 entries of the resolved amount column strictly exceed its own resolved
value - top-3 by value with ties included, not top-3 by rank - and on the
spec's example [10, 10, 10, 5, 1] both renderers mark exactly the three rows
holding 10. (The spreadsheet renderer applies the same value test to the
row's last-column value, so the iff stated on "its amount" holds for it only
when the amount column is last.) -/
theorem claim_C2_thm :
    (∀ (df : DataFrame) (j i : Nat), amountColIdx df = some j → i < df.rows.length →
        ((pdfRowColors df j).getD i Color.whitesmoke = Color.gold
          ↔ (columnVals df j).countP
              (fun x => decide ((df.rows.getD i []).getD j 0 < x)) < 3))
      ∧ pdfTopRows dfC2 = [0, 1, 2] ∧ excelTopRows dfC2 = [0, 1, 2] := by
  refine ⟨?_, by decide, by decide⟩
  intro df j i hj hi
  rw [pdfRowColors_getD df j i hi, pdfRowColor_gold_iff, mem_nlargest3_iff]
  constructor
  · exact fun h => h.2
  · exact fun h => ⟨amount_getD_mem df j i hi, h⟩

/-- C2 witness: on the example table, row 0 (amount 10) is painted gold. -/
theorem claim_C2_witness :
    (pdfRowColors dfC2 0).getD 0 Color.whitesmoke = Color.gold :=
  (claim_C2_thm.1 dfC2 0 0 (by decide) (by decide)).mpr (by decide)

def dfC2x : DataFrame := DataFrame.mk ["amount", "z"] [[100, 1], [50, 2], [25, 3], [10, 4]]

/-- C2 counterexample: row 0's amount (100, the maximum of the resolved
column) is among the 3 largest values, yet the spreadsheet renderer marks no
row TopN, because its membership test reads the last column - the claimed
iff fails for tables whose amount column is not last. -/
theorem claim_C2_cex :
    (dfC2x.rows.getD 0 []).getD 0 0 ∈ nlargest3 (columnVals dfC2x 0)
      ∧ amountColIdx dfC2x = some 0 ∧ excelTopRows dfC2x = [] := by
  refine ⟨by decide, by decide, by decide⟩

/-- C3: in the document renderer a TopN row is always gold, and every non-TopN
data row receives the light-blue AlternateA tint exactly when its 1-based
position is even and whitesmoke (AlternateB) when odd; consequently a 5-row
table with no TopN rows bands as [B, A, B, A, B]. -/
theorem claim_C3_thm :
    (∀ (df : DataFrame) (j i : Nat), amountColIdx df = some j → i < df.rows.length →
        (((df.rows.getD i []).getD j 0 ∈ nlargest3 (columnVals df j) →
            (pdfRowColors df j).getD i Color.whitesmoke = Color.gold)
          ∧ ((df.rows.getD i []).getD j 0 ∉ nlargest3 (columnVals df j) →
              (pdfRowColors df j).getD i Color.whitesmoke
                = if (i + 1) % 2 = 0 then Color.lightBlue else Color.whitesmoke)))
      ∧ (∀ (df : DataFrame) (j : Nat), amountColIdx df = some j → df.rows.length = 5 →
          pdfTopRows df = [] →
          pdfRowColors df j
            = [Color.whitesmoke, Color.lightBlue, Color.whitesmoke, Color.lightBlue,
               Color.whitesmoke]) := by
  constructor
  · intro df j i hj hi
    constructor
    · intro hmem
      rw [pdfRowColors_getD df j i hi]
      exact (pdfRowColor_gold_iff _ _ _).mpr hmem
    · intro hmem
      rw [pdfRowColors_getD df j i hi]
      unfold pdfRowColor
      rw [if_neg hmem]
  · intro df j hj h5 hempty
    have hfilter : (List.range df.rows.length).filter
        (fun i =>
          decide (pdfRowColor (nlargest3 (columnVals df j)) i ((df.rows.getD i []).getD j 0)
            = Color.gold)) = [] := by
      unfold pdfTopRows at hempty
      rw [hj] at hempty
      exact hempty
    have hnot : ∀ i, i < df.rows.length →
        ((df.rows.getD i []).getD j 0) ∉ nlargest3 (columnVals df j) := by
      intro i hi
      have h1 := List.filter_eq_nil_iff.mp hfilter i (List.mem_range.mpr hi)
      rw [decide_eq_true_eq] at h1
      intro hmem
      exact h1 ((pdfRowColor_gold_iff _ _ _).mpr hmem)
    have key : ∀ i, i < df.rows.length →
        pdfRowColor (nlargest3 (columnVals df j)) i ((df.rows.getD i []).getD j 0)
          = if (i + 1) % 2 = 0 then Color.lightBlue else Color.whitesmoke := by
      intro i hi
      unfold pdfRowColor
      rw [if_neg (hnot i hi)]
    have hrange : List.range 5 = [0, 1, 2, 3, 4] := rfl
    unfold pdfRowColors
    rw [h5, hrange]
    simp only [List.map_cons, List.map_nil]
    rw [key 0 (by omega), key 1 (by omega), key 2 (by omega), key 3 (by omega),
      key 4 (by omega)]
    decide

def dfC3 : DataFrame := DataFrame.mk ["amount"] [[100], [100], [100], [1], [2]]

/-- C3 witness: the 4th data row (0-based index 3, amount 1, not TopN, even
1-based position) gets the light-blue AlternateA tint. -/
theorem claim_C3_witness :
    (pdfRowColors dfC3 0).getD 3 Color.whitesmoke = Color.lightBlue := by
  have h := (claim_C3_thm.1 dfC3 0 3 (by decide) (by decide)).2 (by decide)
  simpa using h

/-- C4 (amended): whenever the resolved amount column is the last column - as
in every table the four report queries produce - the two renderers give the
gold fill to exactly the same data-row indices. -/
theorem claim_C4_thm (df : DataFrame) (j : Nat) (hj : amountColIdx df = some j)
    (hlast : j = df.cols.length - 1) : pdfTopRows df = excelTopRows df := by
  unfold pdfTopRows excelTopRows
  simp only [hj]
  subst hlast
  apply List.filter_congr
  intro i _
  rw [decide_eq_decide]
  exact pdfRowColor_gold_iff _ _ _

def dfC4 : DataFrame :=
  DataFrame.mk ["product_name", "total_amount"] [[1, 50], [2, 40], [3, 30], [4, 20]]

/-- C4 witness: a By-Product-shaped table (amount column last) gets identical
gold rows from both renderers. -/
theorem claim_C4_witness : pdfTopRows dfC4 = excelTopRows dfC4 :=
  claim_C4_thm dfC4 1 (by decide) (by decide)

def dfC4x : DataFrame := DataFrame.mk ["total_amount", "qty"] [[30, 1], [20, 2], [10, 3], [5, 4]]

/-- C4 counterexample: with the amount column not last, the document renderer
marks rows 0-2 gold while the spreadsheet renderer marks none - the two
highlight sets differ. -/
theorem claim_C4_cex : pdfTopRows dfC4x = [0, 1, 2] ∧ excelTopRows dfC4x = [] := by
  refine ⟨by decide, by decide⟩

/-- C6 (amended): the chart block runs only when an amount-like column exists.
Then: `product_name` present gives a bar chart plotting `amount` if present
else `total_amount`; otherwise `category` present gives a pie of
`total_amount`, raising KeyError when `total_amount` is absent; otherwise an
EMPTY figure is still saved and embedded - the chart is not omitted. With no
amount-like column the chart is omitted, and any chart element the phase
selects is carried into the successfully built document. -/
theorem claim_C6_thm (df : DataFrame) (t : String) :
    (df.cols.contains "product_name" = true →
        (df.cols.contains "amount" || df.cols.contains "total_amount") = true →
        pdfChartPhase df = Except.ok
          (some (Chart.bar (if df.cols.contains "amount" then "amount" else "total_amount")),
           true))
      ∧ (df.cols.contains "product_name" = false → df.cols.contains "category" = true →
          df.cols.contains "total_amount" = true →
          pdfChartPhase df = Except.ok (some Chart.pie, true))
      ∧ (df.cols.contains "product_name" = false → df.cols.contains "category" = true →
          df.cols.contains "total_amount" = false → df.cols.contains "amount" = true →
          pdfChartPhase df = Except.error (PdfErr.keyErr "total_amount"))
      ∧ (df.cols.contains "product_name" = false → df.cols.contains "category" = false →
          (df.cols.contains "amount" || df.cols.contains "total_amount") = true →
          pdfChartPhase df = Except.ok (some Chart.emptyFig, true))
      ∧ (df.cols.contains "amount" = false → df.cols.contains "total_amount" = false →
          pdfChartPhase df = Except.ok (none, false))
      ∧ (∀ ch w j, pdfChartPhase df = Except.ok (ch, w) → amountColIdx df = some j →
          (createPdf df t true).1
            = Except.ok (PdfArtifact.mk t ch df.cols df.rows (pdfRowColors df j))) := by
  refine ⟨?_, ?_, ?_, ?_, ?_, ?_⟩
  · intro hp hor
    unfold pdfChartPhase
    rw [hor, hp]
    simp
  · intro hp hc ht
    unfold pdfChartPhase
    rw [hp, hc, ht]
    simp
  · intro hp hc ht ha
    unfold pdfChartPhase
    rw [hp, hc, ht, ha]
    simp
  · intro hp hc hor
    unfold pdfChartPhase
    rw [hor, hp, hc]
    simp
  · intro ha ht
    unfold pdfChartPhase
    rw [ha, ht]
    simp
  · intro ch w j hok hj
    unfold createPdf
    simp only [hok, hj]
    simp

def dfC6 : DataFrame := DataFrame.mk ["amount"] [[5]]

/-- C6 counterexample: a table exposing neither `product_name` nor `category`
(but an amount column) still gets a chart element - the saved empty figure -
embedded in the document, rather than the chart being omitted. -/
theorem claim_C6_cex :
    (createPdf dfC6 "Sales Report" true).1
      = Except.ok (PdfArtifact.mk "Sales Report" (some Chart.emptyFig) ["amount"] [[5]]
          [Color.gold]) := by
  rfl

def dfC6w : DataFrame := DataFrame.mk ["product_name", "amount"] [[1, 5]]

/-- C6 witness: with `product_name` present, the built document carries the
bar chart (plotting the `amount` column). -/
theorem claim_C6_witness :
    (createPdf dfC6w "Sales Report" true).1
      = Except.ok (PdfArtifact.mk "Sales Report" (some (Chart.bar "amount"))
          ["product_name", "amount"] [[1, 5]] (pdfRowColors dfC6w 1)) :=
  (claim_C6_thm dfC6w "Sales Report").2.2.2.2.2 (some (Chart.bar "amount")) true 1
    (by rfl) (by rfl)

/-- C7 (amended): an empty table yields header-only content with no
highlighted rows in both renderers; but the chart element selected by the
chart phase is still embedded by the document renderer, and the spreadsheet
renderer always embeds its chart - raising when the table lacks both
`category` and `product_name` (see the counterexample). -/
theorem claim_C7_thm (cols : List String) (t : String) (p : Option Chart × Bool) (j : Nat)
    (hp : pdfChartPhase (DataFrame.mk cols []) = Except.ok p)
    (hj : amountColIdx (DataFrame.mk cols []) = some j) :
    (createPdf (DataFrame.mk cols []) t true).1
        = Except.ok (PdfArtifact.mk t p.1 cols [] [])
      ∧ (∀ a, createExcel (DataFrame.mk cols []) = Except.ok a →
          a.body = [] ∧ a.topRows = []) := by
  constructor
  · unfold createPdf
    simp only [hp, hj]
    simp [pdfRowColors]
  · intro a ha
    unfold createExcel at ha
    simp only [hj] at ha
    rcases hk : (if (DataFrame.mk cols []).cols.contains "category"
        then getLoc (DataFrame.mk cols []) "category"
        else getLoc (DataFrame.mk cols []) "product_name") with _ | k
    · rw [hk] at ha
      exact absurd ha (by simp)
    · rw [hk] at ha
      injection ha with ha2
      rw [← ha2]
      constructor
      · rfl
      · show excelTopRows (DataFrame.mk cols []) = []
        simp [excelTopRows, hj]

/-- C7 witness: an empty two-column table renders to a header-only document
(with the bar chart still present, no highlight rows). -/
theorem claim_C7_witness :
    (createPdf (DataFrame.mk ["product_name", "amount"] []) "Sales Report" true).1
      = Except.ok (PdfArtifact.mk "Sales Report" (some (Chart.bar "amount"))
          ["product_name", "amount"] [] []) :=
  (claim_C7_thm ["product_name", "amount"] "Sales Report" (some (Chart.bar "amount"), true) 1
    (by rfl) (by rfl)).1

def dfC7x : DataFrame := DataFrame.mk ["sale_date", "total_qty", "total_amount"] []

/-- C7 counterexample: an empty table with the Daily Sales Summary schema
makes the spreadsheet renderer raise at the chart category-axis lookup - it
neither produces a chartless header-only workbook nor avoids raising. -/
theorem claim_C7_cex :
    dfC7x.rows = [] ∧ createExcel dfC7x = Except.error (ExcelErr.keyErr "product_name") := by
  exact ⟨rfl, by rfl⟩

end SalesApp
